import Mathlib

/-!
Verification of the client-side event-fan-out services of the
blind-dinner-enterprise front end: the subscription registry, the
WebSocket push client (`RealtimeService`) and the in-memory
notification queue (`NotificationService`), shallowly embedded from
`src/App.test.tsx`.

Callbacks are identified by natural numbers (JavaScript removes them by
reference identity; distinct ids model distinct function references).
Clock readings (`Date.now()`, `new Date()`) are naturals; `setTimeout`
is modelled by an explicit pending-timer list consumed by an explicit
time-advance step.
-/

/-- Callback identity (JS function reference). -/
abbrev Callback := Nat

/-- `Map<string, Set<callback>>` as an association list with
insertion-ordered callback lists (JS `Set` iterates in insertion
order and ignores duplicate insertion). -/
structure Registry where
  subs : List (String × List Callback)
deriving DecidableEq, Repr

/-- `Map.get(key)` — first matching entry. -/
def lookupKey (k : String) : List (String × List Callback) → Option (List Callback)
  | [] => none
  | (k2, cs) :: rest => if k2 = k then some cs else lookupKey k rest

/-- `Set.add`: append if not already present. -/
def setAdd (cs : List Callback) (c : Callback) : List Callback :=
  if c ∈ cs then cs else cs ++ [c]

/-- Rewrite the callback set stored under key `k` with `f`. -/
def mapSet (k : String) (f : List Callback → List Callback) :
    List (String × List Callback) → List (String × List Callback)
  | [] => []
  | (k2, cs) :: rest =>
      (k2, if k2 = k then f cs else cs) :: mapSet k f rest

/-- `RealtimeService.subscribe(eventType, callback)` — ensure the key has
an entry, then `Set.add` the callback. -/
def subscribeR (r : Registry) (k : String) (c : Callback) : Registry :=
  let subs := if (lookupKey k r.subs).isSome then r.subs else r.subs ++ [(k, [])]
  ⟨mapSet k (fun cs => setAdd cs c) subs⟩

/-- The unsubscribe handle returned by `subscribe`:
`this.subscribers.get(eventType)?.delete(callback)`. -/
def unsubscribeR (r : Registry) (k : String) (c : Callback) : Registry :=
  ⟨mapSet k (fun cs => cs.filter (fun c2 => c2 ≠ c)) r.subs⟩

/-- The callbacks `onEvent(eventType, _)` iterates over: the set stored
under the key, nobody when the key is absent. -/
def dispatched (r : Registry) (k : String) : List Callback :=
  (lookupKey k r.subs).getD []

/-- Operations on the registry: subscribe, invoke the unsubscribe handle,
dispatch an event of some key. -/
inductive RegOp
  | sub (k : String) (c : Callback)
  | unsub (k : String) (c : Callback)
  | dispatch (k : String)
deriving DecidableEq, Repr

/-- One registry transition (dispatch does not change the registry). -/
def regStep (r : Registry) : RegOp → Registry
  | .sub k c => subscribeR r k c
  | .unsub k c => unsubscribeR r k c
  | .dispatch _ => r

/-- Run a sequence of operations from registry `r`. -/
def regRunFrom (r : Registry) (ops : List RegOp) : Registry :=
  ops.foldl regStep r

/-- Run a sequence of operations from the empty registry. -/
def regRun (ops : List RegOp) : Registry :=
  regRunFrom ⟨[]⟩ ops

/-- Specification-level bookkeeping: is `c` registered under `k` after the
operations, starting from registration status `b`? -/
def registeredAfterB (k : String) (c : Callback) : Bool → List RegOp → Bool
  | b, [] => b
  | b, .sub k2 c2 :: ops =>
      registeredAfterB k c (if k2 = k ∧ c2 = c then true else b) ops
  | b, .unsub k2 c2 :: ops =>
      registeredAfterB k c (if k2 = k ∧ c2 = c then false else b) ops
  | b, .dispatch _ :: ops => registeredAfterB k c b ops

/-- Registered after `ops` from the empty registry. -/
def registeredAfter (ops : List RegOp) (k : String) (c : Callback) : Bool :=
  registeredAfterB k c false ops

/-- `callbacks.forEach(callback => callback(data))` when callbacks may
throw: `thr c = true` means callback `c` raises when invoked.  `forEach`
installs no handler, so the first raise aborts the iteration and the
exception propagates (second component `true`).  Returns the callbacks
actually invoked (the raising one was entered, later ones were not). -/
def forEachCalls (thr : Callback → Bool) : List Callback → List Callback × Bool
  | [] => ([], false)
  | c :: cs =>
      if thr c then ([c], true)
      else
        let r := forEachCalls thr cs
        (c :: r.1, r.2)

/-- `onEvent(eventType, data)` with possibly-throwing callbacks:
look the key up, then iterate; absent key dispatches to nobody. -/
def onEventExc (thr : Callback → Bool) (r : Registry) (k : String) :
    List Callback × Bool :=
  match lookupKey k r.subs with
  | none => ([], false)
  | some cs => forEachCalls thr cs

-- The Push Client (`RealtimeService`).

/-- `WebSocket.CONNECTING`. -/
def wsCONNECTING : Nat := 0

/-- `WebSocket.OPEN`. -/
def wsOPEN : Nat := 1

/-- `WebSocket.CLOSING`. -/
def wsCLOSING : Nat := 2

/-- `WebSocket.CLOSED`. -/
def wsCLOSED : Nat := 3

/-- The `{type, payload}` wire shape; the payload is opaque text. -/
structure Envelope where
  type : String
  payload : String
deriving DecidableEq, Repr

/-- One `WebSocket` object: its `readyState` and the frames passed to
its `send`. -/
structure Socket where
  readyState : Nat
  sentFrames : List Envelope
deriving DecidableEq, Repr

/-- The `RealtimeService` instance plus its environment: every socket
ever constructed (`this.ws = null` does not destroy the object — its
handlers still fire), the pending `setTimeout` reconnect timers as
(fire time, attempt number) pairs, the `console.log` output, and the
clock. `connect`'s token parameter only reaches the connection URL and
is not retained by the retry schedule. -/
structure RSState where
  sockets : List Socket
  ws : Option Nat
  reconnectAttempts : Nat
  maxReconnectAttempts : Nat
  reconnectInterval : Nat
  subscribers : List (String × List Callback)
  invocations : List (String × Callback)
  reconnectTimers : List (Nat × Nat)
  log : List String
  now : Nat
deriving DecidableEq, Repr

/-- A fresh `RealtimeService` (field initialisers of the class). -/
def RSState.init : RSState :=
  ⟨[], none, 0, 5, 1000, [], [], [], [], 0⟩

/-- Replace socket `i` by `f` of it, when it exists. -/
def updateSocket (l : List Socket) (i : Nat) (f : Socket → Socket) : List Socket :=
  match l[i]? with
  | some sk => l.set i (f sk)
  | none => l

/-- `this.ws && this.ws.readyState === WebSocket.OPEN`. -/
def RSState.connected (s : RSState) : Bool :=
  match s.ws with
  | some i =>
      match s.sockets[i]? with
      | some sk => sk.readyState == wsOPEN
      | none => false
  | none => false

/-- `connect(token)`: early-return when already connected, otherwise
construct a new `WebSocket` (readyState CONNECTING) and point `this.ws`
at it. -/
def RSState.connect (s : RSState) (_token : String) : RSState :=
  if s.connected then s
  else { s with sockets := s.sockets ++ [⟨wsCONNECTING, []⟩],
                ws := some s.sockets.length }

/-- `onEvent(eventType, data)`: fan the event out to the callbacks
registered under the key, recording the invocations. -/
def RSState.onEvent (s : RSState) (k : String) : RSState :=
  { s with invocations :=
      s.invocations ++ (dispatched ⟨s.subscribers⟩ k).map (fun c => (k, c)) }

/-- `RealtimeService.subscribe` acting on the service's own registry. -/
def RSState.subscribeEvent (s : RSState) (k : String) (c : Callback) : RSState :=
  { s with subscribers := (subscribeR ⟨s.subscribers⟩ k c).subs }

/-- `handleReconnect()`: below the cap, advance the attempt counter and
schedule a timer after `reconnectInterval * attempts`; at the cap, do
nothing.  The timer's callback only logs — it does not reconnect. -/
def RSState.handleReconnect (s : RSState) : RSState :=
  if s.reconnectAttempts < s.maxReconnectAttempts then
    { s with
        reconnectAttempts := s.reconnectAttempts + 1,
        reconnectTimers := s.reconnectTimers ++
          [(s.now + s.reconnectInterval * (s.reconnectAttempts + 1),
            s.reconnectAttempts + 1)] }
  else s

/-- Transport delivers socket `i`'s open event: the socket becomes OPEN
and its `onopen` handler runs (log, reset the attempt counter, dispatch
the `connection` event). -/
def RSState.openEvent (s : RSState) (i : Nat) : RSState :=
  let opened := updateSocket s.sockets i (fun sk => { sk with readyState := wsOPEN })
  let s1 := { s with sockets := opened }
  let s2 := { s1 with log := s1.log ++ ["WebSocket connected"], reconnectAttempts := 0 }
  s2.onEvent "connection"

/-- Transport delivers socket `i`'s close event: the socket becomes
CLOSED and its `onclose` handler runs — unconditionally
`handleReconnect()`, whatever caused the close. -/
def RSState.closeEvent (s : RSState) (i : Nat) : RSState :=
  let closed := updateSocket s.sockets i (fun sk => { sk with readyState := wsCLOSED })
  let s1 := { s with sockets := closed }
  let s2 := { s1 with log := s1.log ++ ["WebSocket disconnected"] }
  s2.handleReconnect

/-- `send(type, payload)`: transmit the envelope only when `this.ws`
exists and is OPEN; otherwise fall through silently. -/
def RSState.send (s : RSState) (ty payload : String) : RSState :=
  match s.ws with
  | none => s
  | some i =>
      match s.sockets[i]? with
      | none => s
      | some sk =>
          if sk.readyState == wsOPEN then
            let sk2 := { sk with sentFrames := sk.sentFrames ++ [⟨ty, payload⟩] }
            { s with sockets := s.sockets.set i sk2 }
          else s

/-- `disconnect()`: `this.ws.close(); this.ws = null` when a socket is
held — `close()` starts the closing handshake (readyState CLOSING); the
close event is delivered by the transport later.  No-op otherwise. -/
def RSState.disconnect (s : RSState) : RSState :=
  match s.ws with
  | none => s
  | some i =>
      let closing := updateSocket s.sockets i (fun sk => { sk with readyState := wsCLOSING })
      { s with sockets := closing, ws := none }

/-- The earliest pending reconnect timer fires: its callback merely logs
`Reconnecting... attempt n` — no socket is constructed, `connect` is not
called. -/
def RSState.fireNextReconnectTimer (s : RSState) : RSState :=
  match s.reconnectTimers with
  | [] => s
  | (ft, n) :: rest =>
      { s with now := ft, reconnectTimers := rest,
               log := s.log ++ ["Reconnecting... attempt " ++ toString n] }

-- The Notification Queue (`NotificationService`).

/-- `'success' | 'error' | 'warning' | 'info'`. -/
inductive NotificationType
  | success
  | error
  | warning
  | info
deriving DecidableEq, Repr

/-- One queued notification.  `details` and `persistent` are optional
fields of the TypeScript interface: `none` models the field being
absent.  (The interface's optional `action` field is carried through
unexamined by every queue operation and is not tracked.) -/
structure Notification where
  id : String
  type : NotificationType
  message : String
  details : Option String
  timestamp : Nat
  read : Bool
  persistent : Option Bool
deriving DecidableEq, Repr

/-- The object passed to `add` at runtime.  Its declared type is
`Omit<Notification, 'id' | 'timestamp' | 'read'>`, but the convenience
constructors spread arbitrary `Partial<Notification>` overrides into
their argument, so `id`, `timestamp` and `read` can in fact be present;
they then win in `{ id, timestamp: new Date(), read: false,
...notification }` because the spread comes last. -/
structure AddArg where
  type : NotificationType
  message : String
  details : Option String := none
  persistent : Option Bool := none
  id : Option String := none
  timestamp : Option Nat := none
  read : Option Bool := none
deriving DecidableEq, Repr

/-- `Partial<Notification>`: the `options` parameter of the convenience
constructors. -/
structure NotifOptions where
  id : Option String := none
  type : Option NotificationType := none
  message : Option String := none
  details : Option String := none
  timestamp : Option Nat := none
  read : Option Bool := none
  persistent : Option Bool := none
deriving DecidableEq, Repr

/-- The `NotificationService` instance plus its environment: the queue
(newest first), the subscriber set, every fan-out performed
(`notifySubscribers` snapshots: who was subscribed and the full list
delivered), the pending auto-removal `setTimeout`s as (fire time,
captured id) pairs, and the clock (`Date.now()`). -/
structure NQState where
  notifications : List Notification
  subscribers : List Callback
  fanouts : List (List Callback × List Notification)
  timers : List (Nat × String)
  now : Nat
deriving DecidableEq, Repr

/-- A fresh `NotificationService`. -/
def NQState.init : NQState := ⟨[], [], [], [], 0⟩

/-- `notifySubscribers()`: deliver the full current list to every
current subscriber. -/
def NQState.notifySubscribers (s : NQState) : NQState :=
  { s with fanouts := s.fanouts ++ [(s.subscribers, s.notifications)] }

/-- `add(notification)`: `id = Date.now().toString()`, build
`{ id, timestamp: new Date(), read: false, ...notification }` (fields
present on the argument override the defaults), prepend, fan out, and —
when the argument's `persistent` is falsy — schedule `remove(id)` after
5000 ms, `id` being the generated one the closure captured.  Returns the
generated id. -/
def NQState.add (s : NQState) (arg : AddArg) : String × NQState :=
  let id := toString s.now
  let n : Notification :=
    { id := arg.id.getD id,
      type := arg.type,
      message := arg.message,
      details := arg.details,
      timestamp := arg.timestamp.getD s.now,
      read := arg.read.getD false,
      persistent := arg.persistent }
  let s1 := { s with notifications := n :: s.notifications }
  let s2 := s1.notifySubscribers
  let s3 :=
    if arg.persistent.getD false then s2
    else { s2 with timers := s2.timers ++ [(s2.now + 5000, id)] }
  (id, s3)

/-- `remove(id)`: filter the id out and fan out — unconditionally. -/
def NQState.remove (s : NQState) (id : String) : NQState :=
  ({ s with notifications := s.notifications.filter (fun n => n.id ≠ id) }).notifySubscribers

/-- The `find`-then-mutate of `markAsRead`: set `read := true` on the
first notification carrying the id; report whether one was found. -/
def markFirstRead (id : String) : List Notification → List Notification × Bool
  | [] => ([], false)
  | n :: ns =>
      if n.id = id then ({ n with read := true } :: ns, true)
      else
        let r := markFirstRead id ns
        (n :: r.1, r.2)

/-- `markAsRead(id)`: mutate the first match and fan out; do nothing at
all (no fan-out either) when no notification has the id. -/
def NQState.markAsRead (s : NQState) (id : String) : NQState :=
  if (markFirstRead id s.notifications).2 then
    ({ s with notifications := (markFirstRead id s.notifications).1 }).notifySubscribers
  else s

/-- `NotificationService.subscribe(callback)` (`Set.add`). -/
def NQState.subscribe (s : NQState) (c : Callback) : NQState :=
  { s with subscribers := setAdd s.subscribers c }

/-- The unsubscribe handle returned by the queue's `subscribe`
(`Set.delete`). -/
def NQState.unsubscribe (s : NQState) (c : Callback) : NQState :=
  { s with subscribers := s.subscribers.filter (fun c2 => c2 ≠ c) }

/-- `success(message, options)`: `add({ type: 'success', message,
...options })` — every field present on `options` overrides. -/
def NQState.success (s : NQState) (message : String) (options : NotifOptions) :
    String × NQState :=
  s.add
    { type := options.type.getD .success,
      message := options.message.getD message,
      details := options.details,
      persistent := options.persistent,
      id := options.id,
      timestamp := options.timestamp,
      read := options.read }

/-- `error(message, options)`: `add({ type: 'error', message,
persistent: true, ...options })` — `persistent` defaults to `true` and
the field is present either way. -/
def NQState.error (s : NQState) (message : String) (options : NotifOptions) :
    String × NQState :=
  s.add
    { type := options.type.getD .error,
      message := options.message.getD message,
      details := options.details,
      persistent := some (options.persistent.getD true),
      id := options.id,
      timestamp := options.timestamp,
      read := options.read }

/-- `warning(message, options)`. -/
def NQState.warning (s : NQState) (message : String) (options : NotifOptions) :
    String × NQState :=
  s.add
    { type := options.type.getD .warning,
      message := options.message.getD message,
      details := options.details,
      persistent := options.persistent,
      id := options.id,
      timestamp := options.timestamp,
      read := options.read }

/-- `info(message, options)`. -/
def NQState.info (s : NQState) (message : String) (options : NotifOptions) :
    String × NQState :=
  s.add
    { type := options.type.getD .info,
      message := options.message.getD message,
      details := options.details,
      persistent := options.persistent,
      id := options.id,
      timestamp := options.timestamp,
      read := options.read }

/-- Time advances by `t`: the scheduled `setTimeout` callbacks whose
deadline is reached run in scheduling order, each performing
`remove(id)` on the id it captured. -/
def NQState.elapse (s : NQState) (t : Nat) : NQState :=
  let target := s.now + t
  let due := s.timers.filter (fun tm => tm.1 ≤ target)
  let remaining := s.timers.filter (fun tm => ¬ tm.1 ≤ target)
  due.foldl (fun st tm => st.remove tm.2) { s with timers := remaining, now := target }

-- Helper lemmas about `lookupKey` and `mapSet`.

theorem lookupKey_mapSet_eq (k : String) (f : List Callback → List Callback) :
    ∀ subs, lookupKey k (mapSet k f subs) = (lookupKey k subs).map f := by
  intro subs
  induction subs with
  | nil => rfl
  | cons p rest ih =>
      obtain ⟨k2, cs⟩ := p
      by_cases h : k2 = k
      · simp [lookupKey, mapSet, h]
      · simp [lookupKey, mapSet, h, ih]

theorem lookupKey_mapSet_ne (k k' : String) (h : k' ≠ k)
    (f : List Callback → List Callback) :
    ∀ subs, lookupKey k' (mapSet k f subs) = lookupKey k' subs := by
  intro subs
  induction subs with
  | nil => rfl
  | cons p rest ih =>
      obtain ⟨k2, cs⟩ := p
      by_cases h3 : k2 = k
      · subst h3
        simp [lookupKey, mapSet, Ne.symm h, ih]
      · simp [lookupKey, mapSet, h3, ih]

theorem lookupKey_append_none (k : String) :
    ∀ subs, lookupKey k subs = none →
      lookupKey k (subs ++ [(k, [])]) = some [] := by
  intro subs
  induction subs with
  | nil => intro _; simp [lookupKey]
  | cons p rest ih =>
      obtain ⟨k2, cs⟩ := p
      intro h
      by_cases h2 : k2 = k
      · simp [lookupKey, h2] at h
      · simp only [List.cons_append, lookupKey, if_neg h2] at h ⊢
        exact ih h

theorem lookupKey_append_ne (k k' : String) (h : k' ≠ k) :
    ∀ subs, lookupKey k' (subs ++ [(k, [])]) = lookupKey k' subs := by
  intro subs
  induction subs with
  | nil => simp [lookupKey, Ne.symm h]
  | cons p rest ih =>
      obtain ⟨k2, cs⟩ := p
      simp only [List.cons_append, lookupKey, List.append_eq, ih]

/-- Membership in `setAdd`. -/
theorem mem_setAdd (cs : List Callback) (c2 c : Callback) :
    c ∈ setAdd cs c2 ↔ (c ∈ cs ∨ c = c2) := by
  by_cases h : c2 ∈ cs
  · simp only [setAdd, if_pos h]
    constructor
    · exact Or.inl
    · rintro (hc | rfl)
      · exact hc
      · exact h
  · simp [setAdd, if_neg h]

/-- Subscribing changes exactly the subscribed key's dispatch set,
by `Set.add`. -/
theorem dispatched_subscribeR_self (r : Registry) (k2 : String) (c2 : Callback) :
    dispatched (subscribeR r k2 c2) k2 = setAdd (dispatched r k2) c2 := by
  unfold dispatched subscribeR
  cases hl : lookupKey k2 r.subs with
  | none =>
      simp only [hl, Option.isSome_none, Bool.false_eq_true, if_false,
        lookupKey_mapSet_eq, lookupKey_append_none k2 r.subs hl,
        Option.map_some', Option.getD_some, Option.getD_none]
  | some cs =>
      simp only [hl, Option.isSome_some, if_true, lookupKey_mapSet_eq,
        Option.map_some', Option.getD_some]

/-- Subscribing leaves every other key's dispatch set unchanged. -/
theorem dispatched_subscribeR_ne (r : Registry) (k2 : String) (c2 : Callback)
    (k : String) (h : k2 ≠ k) :
    dispatched (subscribeR r k2 c2) k = dispatched r k := by
  unfold dispatched subscribeR
  cases hl : lookupKey k2 r.subs with
  | none =>
      simp only [hl, Option.isSome_none, Bool.false_eq_true, if_false,
        lookupKey_mapSet_ne k2 k (Ne.symm h),
        lookupKey_append_ne k2 k (Ne.symm h)]
  | some cs =>
      simp only [hl, Option.isSome_some, if_true,
        lookupKey_mapSet_ne k2 k (Ne.symm h)]

/-- Invoking an unsubscribe handle filters exactly its callback out of
its key's dispatch set. -/
theorem dispatched_unsubscribeR_self (r : Registry) (k : String) (c : Callback) :
    dispatched (unsubscribeR r k c) k =
      (dispatched r k).filter (fun c2 => c2 ≠ c) := by
  unfold dispatched unsubscribeR
  rw [lookupKey_mapSet_eq]
  cases hl : lookupKey k r.subs <;> simp

/-- Invoking an unsubscribe handle leaves every other key unchanged. -/
theorem dispatched_unsubscribeR_ne (r : Registry) (k : String) (c : Callback)
    (k' : String) (h : k' ≠ k) :
    dispatched (unsubscribeR r k c) k' = dispatched r k' := by
  unfold dispatched unsubscribeR
  rw [lookupKey_mapSet_ne k k' h]

/-- Membership in the dispatch set after a subscribe. -/
theorem mem_dispatched_subscribeR (r : Registry) (k2 k : String) (c2 c : Callback) :
    (c ∈ dispatched (subscribeR r k2 c2) k) ↔
      ((k2 = k ∧ c2 = c) ∨ c ∈ dispatched r k) := by
  by_cases hk : k2 = k
  · subst hk
    rw [dispatched_subscribeR_self, mem_setAdd]
    constructor
    · rintro (h | rfl)
      · exact Or.inr h
      · exact Or.inl ⟨rfl, rfl⟩
    · rintro (⟨_, rfl⟩ | h)
      · exact Or.inr rfl
      · exact Or.inl h
  · rw [dispatched_subscribeR_ne r k2 c2 k hk]
    constructor
    · exact Or.inr
    · rintro (⟨h, _⟩ | h)
      · exact absurd h hk
      · exact h

/-- Membership in the dispatch set after invoking an unsubscribe handle:
exactly that callback is removed from exactly that key. -/
theorem mem_dispatched_unsubscribeR (r : Registry) (k k' : String) (c c' : Callback) :
    (c' ∈ dispatched (unsubscribeR r k c) k') ↔
      (c' ∈ dispatched r k' ∧ ¬(k' = k ∧ c' = c)) := by
  by_cases hk : k' = k
  · subst hk
    rw [dispatched_unsubscribeR_self]
    simp [List.mem_filter]
  · rw [dispatched_unsubscribeR_ne r k c k' hk]
    constructor
    · intro h
      exact ⟨h, fun hh => hk hh.1⟩
    · exact And.left

/-- The dispatch set computed by the running registry agrees with the
specification-level registration bookkeeping, from any start. -/
theorem mem_dispatched_regRunFrom (k : String) (c : Callback) :
    ∀ (ops : List RegOp) (r : Registry),
      (c ∈ dispatched (regRunFrom r ops) k) ↔
        registeredAfterB k c (decide (c ∈ dispatched r k)) ops = true := by
  intro ops
  induction ops with
  | nil =>
      intro r
      simp [regRunFrom, registeredAfterB]
  | cons op ops ih =>
      intro r
      cases op with
      | sub k2 c2 =>
          have hstep : regRunFrom r (RegOp.sub k2 c2 :: ops) =
              regRunFrom (subscribeR r k2 c2) ops := rfl
          rw [hstep, ih]
          by_cases h : k2 = k ∧ c2 = c
          · obtain ⟨rfl, rfl⟩ := h
            simp [registeredAfterB, mem_dispatched_subscribeR]
          · simp [registeredAfterB, h, mem_dispatched_subscribeR]
      | unsub k2 c2 =>
          have hstep : regRunFrom r (RegOp.unsub k2 c2 :: ops) =
              regRunFrom (unsubscribeR r k2 c2) ops := rfl
          rw [hstep, ih]
          by_cases h : k2 = k ∧ c2 = c
          · obtain ⟨rfl, rfl⟩ := h
            simp [registeredAfterB, mem_dispatched_unsubscribeR]
          · have h2 : ¬(k = k2 ∧ c = c2) := fun hh => h ⟨hh.1.symm, hh.2.symm⟩
            simp [registeredAfterB, h, h2, mem_dispatched_unsubscribeR]
      | dispatch k2 =>
          have hstep : regRunFrom r (RegOp.dispatch k2 :: ops) = regRunFrom r ops := rfl
          rw [hstep, ih]
          simp [registeredAfterB]

/-- Specialisation to runs from the empty registry. -/
theorem mem_dispatched_regRun (ops : List RegOp) (k : String) (c : Callback) :
    (c ∈ dispatched (regRun ops) k) ↔ registeredAfter ops k c = true := by
  have h := mem_dispatched_regRunFrom k c ops ⟨[]⟩
  rw [show (decide (c ∈ dispatched ⟨[]⟩ k)) = false from by
    simp [dispatched, lookupKey]] at h
  exact h

theorem mapSet_mapSet (k : String) (f g : List Callback → List Callback) :
    ∀ subs, mapSet k g (mapSet k f subs) = mapSet k (fun cs => g (f cs)) subs := by
  intro subs
  induction subs with
  | nil => rfl
  | cons p rest ih =>
      obtain ⟨k2, cs⟩ := p
      by_cases h : k2 = k <;> simp [mapSet, h, ih]

/-- Invoking an unsubscribe handle twice equals invoking it once: the
second invocation is a no-op. -/
theorem unsubscribeR_idem (r : Registry) (k : String) (c : Callback) :
    unsubscribeR (unsubscribeR r k c) k c = unsubscribeR r k c := by
  unfold unsubscribeR
  rw [mapSet_mapSet]
  have hfilter : ∀ cs : List Callback,
      (cs.filter (fun c2 => c2 ≠ c)).filter (fun c2 => c2 ≠ c) =
        cs.filter (fun c2 => c2 ≠ c) := by
    intro cs
    induction cs with
    | nil => rfl
    | cons a rest ih =>
        by_cases h : a = c
        · simp [List.filter_cons, h, ih]
        · simp [List.filter_cons, h, ih]
  have hfun : (fun cs : List Callback =>
      (cs.filter (fun c2 => c2 ≠ c)).filter (fun c2 => c2 ≠ c)) =
      (fun cs : List Callback => cs.filter (fun c2 => c2 ≠ c)) := by
    funext cs
    exact hfilter cs
  rw [hfun]

/-- C2: over every sequence of subscribe/unsubscribe/dispatch operations,
a callback is invoked (is in the dispatch set) at a dispatch of key `k`
exactly when it is registered under `k` at that point; the unsubscribe
handle removes exactly its callback from exactly its key; invoking the
handle when the callback is already removed is a no-op. -/
theorem C2_registry_exactness :
    (∀ (ops : List RegOp) (i : Nat) (k : String) (c : Callback),
        ops.get? i = some (RegOp.dispatch k) →
          ((c ∈ dispatched (regRun (ops.take i)) k) ↔
            registeredAfter (ops.take i) k c = true))
    ∧ (∀ (r : Registry) (k : String) (c : Callback) (k' : String) (c' : Callback),
        (c' ∈ dispatched (unsubscribeR r k c) k') ↔
          (c' ∈ dispatched r k' ∧ ¬(k' = k ∧ c' = c)))
    ∧ (∀ (r : Registry) (k : String) (c : Callback),
        unsubscribeR (unsubscribeR r k c) k c = unsubscribeR r k c) := by
  refine ⟨fun ops i k c _ => mem_dispatched_regRun (ops.take i) k c, ?_, ?_⟩
  · intro r k c k' c'
    exact mem_dispatched_unsubscribeR r k k' c c'
  · intro r k c
    exact unsubscribeR_idem r k c

/-- Witness for C2 at a concrete run: subscribe callback 0 under
"messages", then dispatch "messages". -/
theorem C2_registry_exactness_witness :
    (0 ∈ dispatched (regRun ([RegOp.sub "messages" 0, RegOp.dispatch "messages"].take 1)) "messages") ↔
      registeredAfter ([RegOp.sub "messages" 0, RegOp.dispatch "messages"].take 1) "messages" 0 = true :=
  C2_registry_exactness.1 [RegOp.sub "messages" 0, RegOp.dispatch "messages"] 1 "messages" 0 rfl

theorem forEachCalls_no_throw (thr : Callback → Bool) :
    ∀ cs : List Callback, (∀ c ∈ cs, thr c = false) →
      forEachCalls thr cs = (cs, false) := by
  intro cs
  induction cs with
  | nil => intro _; rfl
  | cons a rest ih =>
      intro h
      have ha : thr a = false := h a (List.mem_cons_self a rest)
      have hrest : ∀ c ∈ rest, thr c = false :=
        fun c hc => h c (List.mem_cons_of_mem a hc)
      simp [forEachCalls, ha, ih hrest]

theorem forEachCalls_throw_at (thr : Callback → Bool) :
    ∀ (cs : List Callback) (i : Nat) (h : i < cs.length),
      thr (cs.get ⟨i, h⟩) = true →
      (∀ (j : Nat) (hj : j < i), thr (cs.get ⟨j, Nat.lt_trans hj h⟩) = false) →
      forEachCalls thr cs = (cs.take (i + 1), true) := by
  intro cs
  induction cs with
  | nil => intro i h; exact absurd h (Nat.not_lt_zero i)
  | cons a rest ih =>
      intro i h hthr hbefore
      cases i with
      | zero =>
          simp only [List.get] at hthr
          simp [forEachCalls, hthr, List.take]
      | succ i2 =>
          have ha : thr a = false := hbefore 0 (Nat.succ_pos i2)
          have h2 : i2 < rest.length := Nat.lt_of_succ_lt_succ h
          have hthr2 : thr (rest.get ⟨i2, h2⟩) = true := hthr
          have hb2 : ∀ (j : Nat) (hj : j < i2),
              thr (rest.get ⟨j, Nat.lt_trans hj h2⟩) = false := by
            intro j hj
            exact hbefore (j + 1) (Nat.succ_lt_succ hj)
          simp [forEachCalls, ha, ih i2 h2 hthr2 hb2, List.take]

/-- C6 counterexample: callbacks 0 (which raises) and 1 are registered
under "users"; dispatching the key invokes only callback 0 — callback 1,
registered at dispatch time, is skipped — and the exception propagates
out of the dispatch loop, refuting the claimed per-callback isolation. -/
theorem C6_counterexample :
    (1 ∉ (onEventExc (fun c => c == 0)
        (subscribeR (subscribeR (Registry.mk []) "users" 0) "users" 1) "users").1)
    ∧ (onEventExc (fun c => c == 0)
        (subscribeR (subscribeR (Registry.mk []) "users" 0) "users" 1) "users").2 = true := by
  decide

/-- C6 (amended): `onEvent` iterates the registered callbacks with no
per-callback handler, so when no callback raises all are invoked and
nothing propagates, but when the first raiser sits at position `i`, the
dispatch invokes exactly the callbacks up to and including position `i`,
skips the rest, and propagates the exception. -/
theorem C6_dispatch_not_isolated (thr : Callback → Bool) (r : Registry) (k : String) :
    (onEventExc thr r k = forEachCalls thr (dispatched r k))
    ∧ ((∀ c ∈ dispatched r k, thr c = false) →
        onEventExc thr r k = (dispatched r k, false))
    ∧ (∀ (i : Nat) (h : i < (dispatched r k).length),
        thr ((dispatched r k).get ⟨i, h⟩) = true →
        (∀ (j : Nat) (hj : j < i), thr ((dispatched r k).get ⟨j, Nat.lt_trans hj h⟩) = false) →
        onEventExc thr r k = ((dispatched r k).take (i + 1), true)) := by
  have heq : onEventExc thr r k = forEachCalls thr (dispatched r k) := by
    unfold onEventExc dispatched
    cases hl : lookupKey k r.subs <;> simp [forEachCalls]
  refine ⟨heq, ?_, ?_⟩
  · intro h
    rw [heq]
    exact forEachCalls_no_throw thr _ h
  · intro i h h1 h2
    rw [heq]
    exact forEachCalls_throw_at thr _ i h h1 h2

/-- Witness for C6 (amended) at a concrete input: one non-raising
callback under "conn" is invoked and nothing propagates. -/
theorem C6_dispatch_not_isolated_witness :
    onEventExc (fun _ => false) (subscribeR (Registry.mk []) "conn" 0) "conn" =
      (dispatched (subscribeR (Registry.mk []) "conn" 0) "conn", false) :=
  (C6_dispatch_not_isolated (fun _ => false) (subscribeR (Registry.mk []) "conn" 0) "conn").2.1
    (fun _ _ => rfl)

/-- C1: a successful `connect("tok")` followed by a transport close
advances the attempt counter to 1 and schedules the backoff timer at
`reconnectInterval * 1`, but when the timer fires its callback only
logs: no new socket is ever constructed, `connect` is not re-entered,
and the client stays disconnected — the automatic "reconnect attempt"
never attempts a connection.  Repeated closes cap the counter at
`maxReconnectAttempts = 5`, after which `handleReconnect` is a no-op. -/
theorem C1_reconnect_timer_never_reconnects :
    (((RSState.init.connect "tok").openEvent 0).connected = true)
    ∧ ((((RSState.init.connect "tok").openEvent 0).closeEvent 0).reconnectAttempts = 1)
    ∧ ((((RSState.init.connect "tok").openEvent 0).closeEvent 0).reconnectTimers = [(1000, 1)])
    ∧ (((((RSState.init.connect "tok").openEvent 0).closeEvent 0).fireNextReconnectTimer).log =
        ["WebSocket connected", "WebSocket disconnected", "Reconnecting... attempt 1"])
    ∧ (((((RSState.init.connect "tok").openEvent 0).closeEvent 0).fireNextReconnectTimer).sockets = [⟨wsCLOSED, []⟩])
    ∧ (((((RSState.init.connect "tok").openEvent 0).closeEvent 0).fireNextReconnectTimer).connected = false)
    ∧ ((((RSState.init.connect "tok").openEvent 0).closeEvent 0).fireNextReconnectTimer =
        { ((RSState.init.connect "tok").openEvent 0).closeEvent 0 with reconnectTimers := [], now := 1000, log := ((((RSState.init.connect "tok").openEvent 0).closeEvent 0)).log ++ ["Reconnecting... attempt 1"] })
    ∧ (((((RSState.init.connect "tok").openEvent 0).closeEvent 0).handleReconnect.handleReconnect.handleReconnect.handleReconnect).reconnectAttempts = 5)
    ∧ (((((RSState.init.connect "tok").openEvent 0).closeEvent 0).handleReconnect.handleReconnect.handleReconnect.handleReconnect).handleReconnect =
        (((RSState.init.connect "tok").openEvent 0).closeEvent 0).handleReconnect.handleReconnect.handleReconnect.handleReconnect) := by
  decide

/-- C3: `send` transmits the `{type, payload}` envelope on the held
socket iff the client is connected; otherwise it is a silent no-op: the
state — in particular every socket's frame list — is unchanged, nothing
is queued, and no error is raised (the embedding is a total function). -/
theorem C3_send_iff_connected (s : RSState) (ty payload : String) :
    (s.connected = true →
      ∃ i sk, s.ws = some i ∧ s.sockets[i]? = some sk ∧
        s.send ty payload = { s with sockets := s.sockets.set i { sk with sentFrames := sk.sentFrames ++ [⟨ty, payload⟩] } })
    ∧ (s.connected = false → s.send ty payload = s) := by
  constructor
  · intro h
    unfold RSState.connected at h
    cases hws : s.ws with
    | none => rw [hws] at h; simp at h
    | some i =>
        rw [hws] at h
        cases hsk : s.sockets[i]? with
        | none => simp [hsk] at h
        | some sk =>
            simp only [hsk] at h
            refine ⟨i, sk, rfl, hsk, ?_⟩
            simp [RSState.send, hws, hsk, h]
  · intro h
    unfold RSState.connected at h
    cases hws : s.ws with
    | none => simp [RSState.send, hws]
    | some i =>
        rw [hws] at h
        cases hsk : s.sockets[i]? with
        | none => simp [RSState.send, hws, hsk]
        | some sk =>
            simp only [hsk] at h
            simp [RSState.send, hws, hsk, h]

/-- Witness for C3 at a concrete input: the fresh client is
disconnected, so `send` is an exact no-op. -/
theorem C3_send_iff_connected_witness :
    RSState.init.send "ping" "x" = RSState.init :=
  (C3_send_iff_connected RSState.init "ping" "x").2 rfl

/-- C5 counterexample: an explicit `disconnect()` after a successful
connect does trigger the reconnect policy — when the transport delivers
the close event of the explicitly closed socket, the unconditional
`onclose` handler runs `handleReconnect()`, advancing the attempt
counter to 1 and scheduling a backoff timer. -/
theorem C5_counterexample :
    (((RSState.init.connect "tok").openEvent 0).disconnect.reconnectAttempts = 0)
    ∧ (((RSState.init.connect "tok").openEvent 0).disconnect.reconnectTimers = [])
    ∧ ((((RSState.init.connect "tok").openEvent 0).disconnect.closeEvent 0).reconnectAttempts = 1)
    ∧ ((((RSState.init.connect "tok").openEvent 0).disconnect.closeEvent 0).reconnectTimers = [(1000, 1)]) := by
  decide

/-- C5 (amended): `disconnect()` closes the held socket (readyState
CLOSING) and drops the reference; with no active connection it is a
no-op, and a second call is always a no-op.  It does not, however,
suppress the reconnect policy: the transport close event that follows an
explicit disconnect still runs `handleReconnect`, advancing the attempt
counter and scheduling a backoff timer whenever the cap is not yet
reached. -/
theorem C5_disconnect_closes_but_still_reconnects :
    (∀ s : RSState, s.ws = none → s.disconnect = s)
    ∧ (∀ s : RSState, (s.disconnect).ws = none)
    ∧ (∀ s : RSState, s.disconnect.disconnect = s.disconnect)
    ∧ (∀ (s : RSState) (i : Nat), s.ws = some i →
        s.disconnect = { s with sockets := updateSocket s.sockets i (fun sk => { sk with readyState := wsCLOSING }), ws := none })
    ∧ (∀ (s : RSState) (i : Nat), s.reconnectAttempts < s.maxReconnectAttempts →
        (s.disconnect.closeEvent i).reconnectAttempts = s.reconnectAttempts + 1
        ∧ (s.disconnect.closeEvent i).reconnectTimers.length = s.reconnectTimers.length + 1) := by
  refine ⟨?_, ?_, ?_, ?_, ?_⟩
  · intro s h
    simp [RSState.disconnect, h]
  · intro s
    cases hws : s.ws with
    | none => simp [RSState.disconnect, hws]
    | some i => simp [RSState.disconnect, hws]
  · intro s
    cases hws : s.ws with
    | none => simp [RSState.disconnect, hws]
    | some i => simp [RSState.disconnect, hws]
  · intro s i h
    simp [RSState.disconnect, h]
  · intro s i h
    cases hws : s.ws with
    | none =>
        constructor <;>
          simp [RSState.disconnect, RSState.closeEvent, RSState.handleReconnect, hws, h]
    | some j =>
        constructor <;>
          simp [RSState.disconnect, RSState.closeEvent, RSState.handleReconnect, hws, h]

/-- Witness for C5 (amended) at a concrete input: `disconnect` on the
fresh (connection-less) client is a no-op. -/
theorem C5_disconnect_closes_but_still_reconnects_witness :
    RSState.init.disconnect = RSState.init :=
  C5_disconnect_closes_but_still_reconnects.1 RSState.init rfl

/-- C7: two `add`s in the same `Date.now()` tick produce the same id —
`success("a")` and `error("b")` both at clock 0 — so the queue holds two
notifications with equal ids at once, violating the claimed uniqueness
invariant. -/
theorem C7_duplicate_ids_same_tick :
    (((NQState.init.success "a" {}).2.error "b" {}).2.notifications.map Notification.id = ["0", "0"])
    ∧ ¬ (((NQState.init.success "a" {}).2.error "b" {}).2.notifications.map Notification.id).Nodup := by
  decide

/-- C4: under the same-tick id collision, the non-persistent
`success("a")` notice's auto-removal timer also removes the persistent
`error("b")` notice (both carry id "0"): the persistent notice is
present before the 5000 ms delay and the whole queue is empty after
`elapse 5000`, although `remove` was never called explicitly. -/
theorem C4_persistent_notice_auto_removed :
    (∃ n ∈ ((NQState.init.success "a" {}).2.error "b" {}).2.notifications, n.type = NotificationType.error ∧ n.persistent = some true)
    ∧ (((NQState.init.success "a" {}).2.error "b" {}).2.timers = [(5000, "0")])
    ∧ (((((NQState.init.success "a" {}).2.error "b" {}).2.elapse 4999).notifications.map Notification.type =
        [NotificationType.error, NotificationType.success]))
    ∧ ((((NQState.init.success "a" {}).2.error "b" {}).2.elapse 5000).notifications = []) := by
  decide

/-- C8 counterexample: overrides passed through a convenience
constructor are spread after the queue-assigned fields, so the caller
does supply `id`, `timestamp` and `read`: the inserted notification has
id "x", timestamp 99 and `read = true` instead of queue-assigned values
and `read = false`. -/
theorem C8_counterexample :
    ((NQState.init.success "m" { id := some "x", timestamp := some 99, read := some true }).2.notifications.map Notification.id = ["x"])
    ∧ ((NQState.init.success "m" { id := some "x", timestamp := some 99, read := some true }).2.notifications.map Notification.timestamp = [99])
    ∧ ((NQState.init.success "m" { id := some "x", timestamp := some 99, read := some true }).2.notifications.map Notification.read = [true]) := by
  decide

/-- C8 (amended): whenever the runtime argument of `add` carries no
`id`/`timestamp`/`read` field — as its declared parameter type
`Omit<Notification, 'id'|'timestamp'|'read'>` prescribes — the inserted
notification gets the queue-assigned id (the clock reading as a string)
and timestamp, `read = false`, is prepended (newest first), and the full
updated list is fanned out to the subscriber set; but a constructor
override carrying those fields wins over the queue's values, because the
argument is spread last. -/
theorem C8_add_assigns_identity (s : NQState) (arg : AddArg)
    (hid : arg.id = none) (hts : arg.timestamp = none) (hrd : arg.read = none) :
    ((s.add arg).1 = toString s.now)
    ∧ ((s.add arg).2.notifications = { id := toString s.now, type := arg.type, message := arg.message, details := arg.details, timestamp := s.now, read := false, persistent := arg.persistent } :: s.notifications)
    ∧ ((s.add arg).2.fanouts = s.fanouts ++ [(s.subscribers, (s.add arg).2.notifications)])
    ∧ ((s.add arg).2.subscribers = s.subscribers) := by
  by_cases hp : arg.persistent.getD false
  · exact ⟨by simp [NQState.add, hid, hp],
      by simp [NQState.add, NQState.notifySubscribers, hid, hts, hrd, hp],
      by simp [NQState.add, NQState.notifySubscribers, hid, hp],
      by simp [NQState.add, NQState.notifySubscribers, hp]⟩
  · exact ⟨by simp [NQState.add, hid, hp],
      by simp [NQState.add, NQState.notifySubscribers, hid, hts, hrd, hp],
      by simp [NQState.add, NQState.notifySubscribers, hid, hp],
      by simp [NQState.add, NQState.notifySubscribers, hp]⟩

/-- Witness for C8 (amended) at a concrete input: adding an info notice
to the fresh queue returns the queue-assigned id. -/
theorem C8_add_assigns_identity_witness :
    (NQState.init.add { type := NotificationType.info, message := "hi" }).1 =
      toString NQState.init.now :=
  (C8_add_assigns_identity NQState.init { type := NotificationType.info, message := "hi" }
    rfl rfl rfl).1

theorem markFirstRead_no_match (id : String) :
    ∀ ns : List Notification, (∀ n ∈ ns, n.id ≠ id) →
      markFirstRead id ns = (ns, false) := by
  intro ns
  induction ns with
  | nil => intro _; rfl
  | cons a rest ih =>
      intro h
      have ha : a.id ≠ id := h a (List.mem_cons_self a rest)
      have hrest : ∀ n ∈ rest, n.id ≠ id :=
        fun n hn => h n (List.mem_cons_of_mem a hn)
      simp [markFirstRead, ha, ih hrest]

theorem markFirstRead_match (id : String) :
    ∀ ns : List Notification, (∃ n ∈ ns, n.id = id) →
      ∃ pre n post,
        ns = pre ++ n :: post
        ∧ (∀ m ∈ pre, m.id ≠ id)
        ∧ n.id = id
        ∧ markFirstRead id ns = (pre ++ { n with read := true } :: post, true) := by
  intro ns
  induction ns with
  | nil =>
      rintro ⟨n, hn, _⟩
      exact absurd hn (List.not_mem_nil n)
  | cons a rest ih =>
      intro hex
      by_cases ha : a.id = id
      · refine ⟨[], a, rest, rfl, ?_, ha, ?_⟩
        · intro m hm
          exact absurd hm (List.not_mem_nil m)
        · simp [markFirstRead, ha]
      · have hex2 : ∃ n ∈ rest, n.id = id := by
          obtain ⟨n, hn, hid⟩ := hex
          cases hn with
          | head => exact absurd hid ha
          | tail _ h2 => exact ⟨n, h2, hid⟩
        obtain ⟨pre, n, post, heq, hpre, hid, hmark⟩ := ih hex2
        refine ⟨a :: pre, n, post, by simp [heq], ?_, hid, ?_⟩
        · intro m hm
          cases hm with
          | head => exact ha
          | tail _ h2 => exact hpre m h2
        · simp [markFirstRead, ha, hmark]

/-- C9: `markAsRead(id)` sets `read := true` on the first notification
carrying the id, changes no other field of it and no other notification
(the prefix of non-matching notices and the suffix are returned intact),
fans the updated list out, and leaves subscribers, timers and clock
alone; when no notification carries the id, the whole call — fan-out
included — is a no-op. -/
theorem C9_markAsRead_first_match_only (s : NQState) (id : String) :
    ((∀ n ∈ s.notifications, n.id ≠ id) → s.markAsRead id = s)
    ∧ ((∃ n ∈ s.notifications, n.id = id) →
        ∃ pre n post,
          s.notifications = pre ++ n :: post
          ∧ (∀ m ∈ pre, m.id ≠ id)
          ∧ n.id = id
          ∧ (s.markAsRead id).notifications = pre ++ { n with read := true } :: post
          ∧ (s.markAsRead id).fanouts = s.fanouts ++ [(s.subscribers, pre ++ { n with read := true } :: post)]
          ∧ (s.markAsRead id).subscribers = s.subscribers
          ∧ (s.markAsRead id).timers = s.timers
          ∧ (s.markAsRead id).now = s.now) := by
  constructor
  · intro h
    simp [NQState.markAsRead, markFirstRead_no_match id s.notifications h]
  · intro hex
    obtain ⟨pre, n, post, heq, hpre, hid, hmark⟩ :=
      markFirstRead_match id s.notifications hex
    have hms : s.markAsRead id =
        ({ s with notifications := pre ++ { n with read := true } :: post }).notifySubscribers := by
      simp [NQState.markAsRead, hmark]
    refine ⟨pre, n, post, heq, hpre, hid, ?_, ?_, ?_, ?_, ?_⟩ <;>
      rw [hms] <;> simp [NQState.notifySubscribers]

/-- Witness for C9 at a concrete input: `markAsRead` on the fresh
(empty) queue is a no-op for any id. -/
theorem C9_markAsRead_first_match_only_witness :
    NQState.init.markAsRead "z" = NQState.init :=
  (C9_markAsRead_first_match_only NQState.init "z").1
    (fun n hn => absurd hn (List.not_mem_nil n))

/-- C10 counterexample: `success("m", {id: "x"})` passes an `id`
override through to `add`; `add` returns the generated id "0", but the
list delivered by the fan-out it triggered has head id "x" — the
returned string and the delivered head id differ. -/
theorem C10_counterexample :
    ((NQState.init.success "m" { id := some "x" }).1 = "0")
    ∧ ((NQState.init.success "m" { id := some "x" }).2.fanouts.map
        (fun f => f.2.map Notification.id) = [["x"]])
    ∧ ("0" : String) ≠ "x" := by
  decide

/-- C10 (amended): whenever the runtime argument of `add` carries no
`id` field — as `add`'s declared parameter type prescribes — the string
`add` returns equals the id of the first (newest) element of the list
the triggered fan-out delivers. -/
theorem C10_add_returns_delivered_head_id (s : NQState) (arg : AddArg)
    (hid : arg.id = none) :
    ((s.add arg).2.fanouts = s.fanouts ++ [(s.subscribers, (s.add arg).2.notifications)])
    ∧ ((s.add arg).2.notifications.head?.map Notification.id = some ((s.add arg).1)) := by
  by_cases hp : arg.persistent.getD false
  · exact ⟨by simp [NQState.add, NQState.notifySubscribers, hid, hp],
      by simp [NQState.add, NQState.notifySubscribers, hid, hp]⟩
  · exact ⟨by simp [NQState.add, NQState.notifySubscribers, hid, hp],
      by simp [NQState.add, NQState.notifySubscribers, hid, hp]⟩

/-- Witness for C10 (amended) at a concrete input. -/
theorem C10_add_returns_delivered_head_id_witness :
    (NQState.init.add { type := NotificationType.success, message := "ok" }).2.notifications.head?.map Notification.id =
      some ((NQState.init.add { type := NotificationType.success, message := "ok" }).1) :=
  (C10_add_returns_delivered_head_id NQState.init
    { type := NotificationType.success, message := "ok" } rfl).2
